import Mathlib

/-!
Shallow embedding of the qiv image viewer/editor (Python/PySide6) and proofs
about its specification claims.

Modelling conventions:
* A raster image (`QPixmap`/`QImage`/PIL image) is a width, a height and a
  total pixel function `Nat → Nat → RGB`; two images are compared either
  field-wise or by `Img.EqOn` (same dimensions, same pixels inside bounds).
* Python `float` state (`rotation_angle`, `total_exposure_ev`, EV deltas,
  scene coordinates, gains) is modelled by exact rationals `ℚ`; Python `%`
  on floats with positive divisor is `qmod` below, `int()` on non-negative
  values is the floor, `x // y` on non-negative ints is `Nat` division.
* External collaborators (the codec `QPixmap(path)` decode, `2.0 ** ev`
  binary64 power, interpolated arbitrary-angle resampling, `md5` digest,
  the thumbnail scaler) are parameters of the functions that call them:
  every binary64 value is a rational, so `2.0 ** ·` is some `ℚ → ℚ`.
* `constants.py` is not under `src/`; `WB_MAX_HALF_SIZE` and
  `WB_MIN_DIVISOR` are passed as the `maxHalf`/`minDiv` parameters
  (mirroring `WhiteBalanceHelper.apply_white_balance`, whose defaults in
  `src/image_helpers.py` are 11 and 200).
-/

namespace Qiv

/-- One RGB pixel; channel values are the 0..255 bytes extracted from a
`QImage.pixel` word (`b = pixel & 0xFF`, `g = (pixel >> 8) & 0xFF`,
`r = (pixel >> 16) & 0xFF`). -/
structure RGB where
  r : Nat
  g : Nat
  b : Nat
deriving Repr, DecidableEq

/-- A raster image: dimensions plus a (total) pixel function. -/
structure Img where
  width : Nat
  height : Nat
  pix : Nat → Nat → RGB

/-- Extensional equality of images: equal dimensions and equal pixels at
every in-bounds coordinate. -/
def Img.EqOn (a b : Img) : Prop :=
  a.width = b.width ∧ a.height = b.height ∧
    ∀ x y, x < a.width → y < a.height → a.pix x y = b.pix x y

/-- `QPixmap.isNull` / `QImage.isNull`: a raster with no pixels. -/
def Img.isNull (a : Img) : Bool :=
  a.width == 0 || a.height == 0

/-- Python `a % n` for floats/reals with a positive divisor `n`: the
representative of `a` modulo `n` lying in `[0, n)`. -/
def qmod (a n : ℚ) : ℚ :=
  a - n * ⌊a / n⌋

/-- Python `min(255, int(v * gain))` for a non-negative channel value and
non-negative gain: multiply, truncate (= floor on non-negatives), clamp
to the byte range. Used by the PIL `point` lambdas in `models.py` and
`image_helpers.py`. -/
def gainPoint (gain : ℚ) (v : Nat) : Nat :=
  min 255 (⌊(v : ℚ) * gain⌋).toNat

/-- White-balance sampling window half-size,
`min(WB_MAX_HALF_SIZE, max(1, min(w, h) // WB_MIN_DIVISOR))`
(`src/models.py` line 150 and `src/image_helpers.py` line 34). -/
def wbWindow (maxHalf minDiv w h : Nat) : Nat :=
  min maxHalf (max 1 (min w h / minDiv))

/-- Offsets `range(-window, window + 1)` of the sampling loops. -/
def wbOffsets (window : Nat) : List ℤ :=
  (List.range (2 * window + 1)).map (fun k => (k : ℤ) - window)

/-- The in-bounds pixels sampled by the white-balance double loop around
`(x, y)` (`src/models.py` lines 154-166): each offset pair `(dx, dy)` with
`0 <= x+dx < w` and `0 <= y+dy < h` contributes the pixel there. -/
def wbSamples (img : Img) (x y : ℤ) (window : Nat) : List RGB :=
  (wbOffsets window).flatMap (fun dx =>
    (wbOffsets window).filterMap (fun dy =>
      let nx := x + dx
      let ny := y + dy
      if 0 ≤ nx ∧ nx < (img.width : ℤ) ∧ 0 ≤ ny ∧ ny < (img.height : ℤ) then
        some (img.pix nx.toNat ny.toNat)
      else
        none))

/-- Gains computed by `ImageModel.apply_white_balance_from_point`
(`src/models.py` lines 144-180): `none` when the pixmap coordinate is
invalid, the window is empty, or the mean green is zero (the method
returns without touching the state in those cases); otherwise the pair
`(gain_r, gain_b)` of `mean_g / mean_r` and `mean_g / mean_b`, each
defaulting to `1.0` when the corresponding mean is zero.  There is no
clamp in this method. -/
def wbGainsModel (img : Img) (x y : ℤ) (maxHalf minDiv : Nat) : Option (ℚ × ℚ) :=
  if 0 ≤ x ∧ x < (img.width : ℤ) ∧ 0 ≤ y ∧ y < (img.height : ℤ) then
    let window := wbWindow maxHalf minDiv img.width img.height
    let s := wbSamples img x y window
    let count := s.length
    if count = 0 then none
    else
      let r : ℚ := ((s.map RGB.r).sum : ℚ) / count
      let g : ℚ := ((s.map RGB.g).sum : ℚ) / count
      let b : ℚ := ((s.map RGB.b).sum : ℚ) / count
      if g = 0 then none
      else
        some (if r ≠ 0 then g / r else 1, if b ≠ 0 then g / b else 1)
  else
    none

/-- Corrected image produced by the white-balance PIL code
(`src/models.py` lines 189-205): the R and B bands pass through
`point(lambda x: min(255, int(x * gain)))`, the G band (and alpha, not
modelled) are untouched; all three mode branches (RGB, RGBA, converted)
perform the same per-channel operation. -/
def applyGains (gainR gainB : ℚ) (img : Img) : Img :=
  ⟨img.width, img.height, fun x y =>
    let p := img.pix x y
    ⟨gainPoint gainR p.r, p.g, gainPoint gainB p.b⟩⟩

/-- Gains computed by `WhiteBalanceHelper.apply_white_balance`
(`src/image_helpers.py` lines 27-53): `none` when the pixmap is
unusable, the window is empty or the total green is zero (the helper
returns `None` or the unchanged pixmap); otherwise the totals ratio
clamped into `[0.25, 4.0]` by `min(4.0, max(0.25, ...))`, defaulting to
`1.0` when the corresponding total is zero. -/
def wbGainsHelper (img : Img) (x y : ℤ) (maxHalf minDiv : Nat) : Option (ℚ × ℚ) :=
  if img.isNull then none
  else if 0 ≤ x ∧ x < (img.width : ℤ) ∧ 0 ≤ y ∧ y < (img.height : ℤ) then
    let half := wbWindow maxHalf minDiv img.width img.height
    let s := wbSamples img x y half
    let totalR : ℚ := ((s.map RGB.r).sum : ℚ)
    let totalG : ℚ := ((s.map RGB.g).sum : ℚ)
    let totalB : ℚ := ((s.map RGB.b).sum : ℚ)
    if s.length = 0 ∨ totalG = 0 then none
    else
      some (if totalR ≠ 0 then min 4 (max (1/4) (totalG / totalR)) else 1,
            if totalB ≠ 0 then min 4 (max (1/4) (totalG / totalB)) else 1)
  else
    none

/-- State of `ImageModel` (`src/models.py` lines 18-24): file path, the
`original` and `current` pixmaps (`none` models Python `None`), the cached
size, and the two accumulators. -/
structure ImageModelState where
  path : Option String
  original : Option Img
  current : Option Img
  size : Option (Nat × Nat)
  rotation_angle : ℚ
  total_exposure_ev : ℚ

namespace ImageModelState

/-- The freshly constructed `ImageModel(path)`. -/
def init (path : Option String) : ImageModelState :=
  ⟨path, none, none, none, 0, 0⟩

/-- `ImageModel.apply_to_current` (`src/models.py` lines 26-32): when the
new pixmap is non-null it becomes both `original` and `current`,
`rotation_angle` resets to 0 and `size` is refreshed (`total_exposure_ev`
and `path` are untouched). -/
def apply_to_current (s : ImageModelState) (newPixmap : Img) : ImageModelState :=
  if newPixmap.isNull then s
  else
    { s with original := some newPixmap, current := some newPixmap,
             rotation_angle := 0, size := some (newPixmap.width, newPixmap.height) }

/-- `ImageModel.load_from_path` (`src/models.py` lines 34-46); `decode`
is the `QPixmap(path)` codec collaborator, `none` for a null pixmap.
Returns the Python `bool` result and the new state. -/
def load_from_path (decode : String → Option Img) (s : ImageModelState)
    (path : String) : Bool × ImageModelState :=
  match decode path with
  | none => (false, s)
  | some pixmap =>
      (true, { s with path := some path, original := some pixmap,
                      current := some pixmap,
                      size := some (pixmap.width, pixmap.height),
                      rotation_angle := 0, total_exposure_ev := 0 })

/-- Exact 90° clockwise raster rotation: column `x` of the source becomes
row `x` of the result, so `new(nx, ny) = old(ny, h - 1 - nx)`.
`QPixmap.transformed(QTransform().rotate(90))` on an axis-aligned 90°
rotation is this pure index permutation (no resampling). -/
def rotate90CW (img : Img) : Img :=
  ⟨img.height, img.width, fun nx ny => img.pix ny (img.height - 1 - nx)⟩

/-- Exact 90° counterclockwise raster rotation:
`new(nx, ny) = old(w - 1 - ny, nx)`. -/
def rotate90CCW (img : Img) : Img :=
  ⟨img.height, img.width, fun nx ny => img.pix (img.width - 1 - ny) nx⟩

/-- Horizontal mirror, `QTransform().scale(-1, 1)`. -/
def flipH (img : Img) : Img :=
  ⟨img.width, img.height, fun x y => img.pix (img.width - 1 - x) y⟩

/-- `ImageModel.rotate_90_clockwise` (`src/models.py` lines 70-75):
no-op when `current` is `None`; otherwise transforms `current` and sets
`rotation_angle := (rotation_angle + 90) % 360` (`size` is not updated
by this method). -/
def rotate_90_clockwise (s : ImageModelState) : ImageModelState :=
  match s.current with
  | none => s
  | some img =>
      { s with current := some (rotate90CW img),
               rotation_angle := qmod (s.rotation_angle + 90) 360 }

/-- `ImageModel.rotate_90_counterclockwise` (`src/models.py` lines 77-82):
`rotation_angle := (rotation_angle - 90) % 360`. -/
def rotate_90_counterclockwise (s : ImageModelState) : ImageModelState :=
  match s.current with
  | none => s
  | some img =>
      { s with current := some (rotate90CCW img),
               rotation_angle := qmod (s.rotation_angle - 90) 360 }

/-- `ImageModel.flip_horizontal` (`src/models.py` lines 84-90): flips
`current` and refreshes `size`; `original` and both accumulators are
untouched. -/
def flip_horizontal (s : ImageModelState) : ImageModelState :=
  match s.current with
  | none => s
  | some img =>
      let out := flipH img
      { s with current := some out, size := some (out.width, out.height) }

/-- `ImageModel.rotate_arbitrary` (`src/models.py` lines 108-114): no-op
when `original` is `None`; otherwise adds the delta to `rotation_angle`
(no `% 360`) and recomputes `current` from `original` at the total angle.
`rot` is the interpolated `QPixmap.transformed` collaborator for
non-multiple-of-90 angles. -/
def rotate_arbitrary (rot : ℚ → Img → Img) (s : ImageModelState)
    (deltaAngle : ℚ) : ImageModelState :=
  match s.original with
  | none => s
  | some orig =>
      let angle := s.rotation_angle + deltaAngle
      let out := rot angle orig
      { s with rotation_angle := angle, current := some out,
               size := some (out.width, out.height) }

/-- Per-pixel exposure image: every channel passes through
`point(lambda x: min(255, int(x * gain)))` (`src/models.py` lines 228-240;
both the RGB and RGBA branches scale R, G and B alike, alpha untouched). -/
def exposeImg (gain : ℚ) (img : Img) : Img :=
  ⟨img.width, img.height, fun x y =>
    let p := img.pix x y
    ⟨gainPoint gain p.r, gainPoint gain p.g, gainPoint gain p.b⟩⟩

/-- `ImageModel.adjust_exposure` (`src/models.py` lines 217-245): no-op
when `original` is `None`; otherwise accumulates the delta into
`total_exposure_ev` and recomputes `current` from `original` with gain
`2.0 ** total_exposure_ev`, then refreshes `size` and zeroes
`rotation_angle`.  `pow2` is the binary64 `2.0 ** ·` collaborator (every
binary64 value is a rational). -/
def adjust_exposure (pow2 : ℚ → ℚ) (s : ImageModelState)
    (deltaEv : ℚ) : ImageModelState :=
  match s.original with
  | none => s
  | some orig =>
      let total := s.total_exposure_ev + deltaEv
      let out := exposeImg (pow2 total) orig
      { s with total_exposure_ev := total, current := some out,
               size := some (out.width, out.height), rotation_angle := 0 }

/-- `ImageModel.apply_white_balance_from_point` (`src/models.py` lines
136-215), parametrized by the two `constants.py` values: no-op when
`current` is `None` or when the gain computation bails out (invalid
point, empty window, zero mean green); otherwise the corrected image
becomes `current`, `size` is refreshed, and — when `original` is not
`None` — the corrected image also becomes `original` and
`rotation_angle` resets to 0.  `total_exposure_ev` is never touched. -/
def apply_white_balance_from_point (maxHalf minDiv : Nat)
    (s : ImageModelState) (x y : ℤ) : ImageModelState :=
  match s.current with
  | none => s
  | some img =>
      match wbGainsModel img x y maxHalf minDiv with
      | none => s
      | some (gainR, gainB) =>
          let out := applyGains gainR gainB img
          let s1 := { s with current := some out,
                             size := some (out.width, out.height) }
          match s.original with
          | none => s1
          | some _ => { s1 with original := some out, rotation_angle := 0 }

end ImageModelState

/-- State of `NavigatorModel` (`src/models.py` lines 261-265): the sorted
sibling paths and the current index (`-1` when unresolved). -/
structure NavigatorState where
  image_paths : List String
  current_file_index : ℤ

namespace NavigatorState

/-- Python truthiness of an optional string (`if new_path:`): `None` and
the empty string are falsy. -/
def truthy : Option String → Bool
  | none => false
  | some p => p ≠ ""

/-- `NavigatorModel.get_next_path` (`src/models.py` lines 310-316):
`None` when the list is empty or the index is negative, otherwise the
element at `(index + 1) % len` (Python `%`, i.e. `Int.emod` for a
positive modulus). -/
def get_next_path (s : NavigatorState) : Option String :=
  if s.image_paths = [] ∨ s.current_file_index < 0 then none
  else
    some (s.image_paths.getD
      ((s.current_file_index + 1) % (s.image_paths.length : ℤ)).toNat "")

/-- `NavigatorModel.get_previous_path` (`src/models.py` lines 318-324). -/
def get_previous_path (s : NavigatorState) : Option String :=
  if s.image_paths = [] ∨ s.current_file_index < 0 then none
  else
    some (s.image_paths.getD
      ((s.current_file_index - 1) % (s.image_paths.length : ℤ)).toNat "")

/-- `NavigatorModel.navigate` (`src/models.py` lines 326-338): dispatch
on the direction string, then — when the candidate path is truthy —
re-resolve the index with `list.index` (first occurrence) and return the
path; otherwise return `None` with the state unchanged. -/
def navigate (s : NavigatorState) (direction : String) :
    Option String × NavigatorState :=
  let newPath : Option String :=
    if direction = "next" then s.get_next_path
    else if direction = "previous" then s.get_previous_path
    else none
  match newPath with
  | some p =>
      if p ≠ "" then
        (some p, { s with current_file_index := (s.image_paths.indexOf p : ℤ) })
      else (none, s)
  | none => (none, s)

end NavigatorState

/-- Integer rectangle in the sense of `QRect`: position plus extent.
`QRect()` is `(0, 0, 0, 0)`. -/
structure Rect where
  x : ℤ
  y : ℤ
  w : ℤ
  h : ℤ
deriving Repr, DecidableEq

/-- `QRect.isNull`: true iff both the width and the height are 0. -/
def Rect.isNull (r : Rect) : Bool :=
  r.w == 0 && r.h == 0

/-- Qt `qRound`: round half away from zero. -/
def qRound (q : ℚ) : ℤ :=
  if 0 ≤ q then ⌊q + 1/2⌋ else ⌈q - 1/2⌉

/-- `QRectF(p1, p2).normalized().toRect()` as performed by
`ImageView.mouseReleaseEvent` (`src/image_view.py` lines 262-266): the
normalized float rectangle spans the two corner points; `toRect` rounds
each component to the nearest integer. -/
def normalizedRect (p1 p2 : ℚ × ℚ) : Rect :=
  ⟨qRound (min p1.1 p2.1), qRound (min p1.2 p2.2),
   qRound |p2.1 - p1.1|, qRound |p2.2 - p1.2|⟩

/-- State of `CropArea` (`src/models.py` lines 386-396). -/
structure CropAreaState where
  rect : Rect
  is_active : Bool
deriving Repr, DecidableEq

namespace CropAreaState

/-- The freshly constructed `CropArea()`. -/
def init : CropAreaState := ⟨⟨0, 0, 0, 0⟩, false⟩

/-- `CropArea.set_rect` (`src/models.py` lines 390-392): stores the rect
and sets `is_active = True` unconditionally — there is no degeneracy
check. -/
def set_rect (_ : CropAreaState) (r : Rect) : CropAreaState :=
  ⟨r, true⟩

/-- `CropArea.reset` (`src/models.py` lines 394-396). -/
def reset (_ : CropAreaState) : CropAreaState :=
  ⟨⟨0, 0, 0, 0⟩, false⟩

end CropAreaState

/-- `ToolMode` (`src/image_view.py` lines 14-18). -/
inductive ToolMode where
  | NONE
  | WHITE_BALANCE
  | CROP
  | LOUPE
deriving Repr, DecidableEq

/-- The viewport-controller state carried by `ImageView` together with
its host `MainWindow`'s `ImageModel`: the tool mode, the pending drag
anchor `_start_pos` (scene coordinates), the crop selection and the
image model.  Overlay widgets (magnifier, loupe, rubber band) and the
pan/zoom transform have no bearing on the claims and are not modelled. -/
structure ViewState where
  mode : ToolMode
  startPos : Option (ℚ × ℚ)
  crop : CropAreaState
  model : ImageModelState

namespace ViewState

/-- `ImageView._clear_selection` (`src/image_view.py` lines 296-307):
resets the crop area only when it is active. -/
def clearSelection (s : ViewState) : ViewState :=
  if s.crop.is_active then { s with crop := s.crop.reset } else s

/-- `ImageView.set_tool_mode` (`src/image_view.py` lines 48-101): run
the exit hook of the old mode (for CROP, clear the selection; the
WHITE_BALANCE/LOUPE hooks only hide overlay widgets), install the new
mode, then run its entry hook (entering CROP or NONE clears the
selection again). -/
def set_tool_mode (s : ViewState) (m : ToolMode) : ViewState :=
  let s1 := if s.mode = ToolMode.CROP then s.clearSelection else s
  let s2 := { s1 with mode := m }
  if m = ToolMode.CROP ∨ m = ToolMode.NONE then s2.clearSelection else s2

/-- `MainWindow.finalize_crop` (`src/main_window.py` lines 390-399):
bail out when there is no current pixmap or no active selection;
otherwise copy the selected rect out of `current`, commit it via
`apply_to_current` and reset the selection.  `copyRect` is the
`QPixmap.copy(rect)` collaborator. -/
def finalize_crop (copyRect : Img → Rect → Img) (s : ViewState) : ViewState :=
  match s.model.current with
  | none => s
  | some img =>
      if ¬ s.crop.is_active then s
      else
        let cropped := copyRect img s.crop.rect
        { s with model := s.model.apply_to_current cropped,
                 crop := s.crop.reset }

/-- `ImageView._apply_crop` (`src/image_view.py` lines 309-317): when the
selection is inactive or its rect `isNull`, only cancel back to NONE;
otherwise run `finalize_crop` and then return to NONE. -/
def applyCrop (copyRect : Img → Rect → Img) (s : ViewState) : ViewState :=
  if ¬ s.crop.is_active ∨ s.crop.rect.isNull then s.set_tool_mode ToolMode.NONE
  else (s.finalize_crop copyRect).set_tool_mode ToolMode.NONE

/-- Left-button `ImageView.mousePressEvent` (`src/image_view.py` lines
122-169) at scene position `p`: in WHITE_BALANCE mode apply white
balance at the clamped integer point and return to NONE; in CROP mode
anchor the drag and reset the selection; LOUPE clicks only cycle the
overlay size and NONE falls through to the default handler. -/
def mousePressLeft (maxHalf minDiv : Nat) (s : ViewState) (p : ℚ × ℚ) : ViewState :=
  match s.mode with
  | ToolMode.WHITE_BALANCE =>
      let s1 :=
        match s.model.current with
        | none => s
        | some img =>
            if img.isNull then s
            else
              let px := max 0 (min (qRound p.1) ((img.width : ℤ) - 1))
              let py := max 0 (min (qRound p.2) ((img.height : ℤ) - 1))
              { s with model :=
                  s.model.apply_white_balance_from_point maxHalf minDiv px py }
      s1.set_tool_mode ToolMode.NONE
  | ToolMode.CROP => { s with startPos := some p, crop := s.crop.reset }
  | _ => s

/-- Left-button `ImageView.mouseReleaseEvent` (`src/image_view.py` lines
260-272) at scene position `p`: if a drag anchor exists (no tool-mode
check in the source), store the normalized integer rectangle in the crop
area — activating it unconditionally — and drop the anchor. -/
def mouseReleaseLeft (s : ViewState) (p : ℚ × ℚ) : ViewState :=
  match s.startPos with
  | none => s
  | some p0 =>
      { s with crop := s.crop.set_rect (normalizedRect p0 p), startPos := none }

/-- Enter/Return in `ImageView.keyPressEvent` (`src/image_view.py` lines
289-292): only handled in CROP mode, where it runs `_apply_crop`. -/
def keyEnter (copyRect : Img → Rect → Img) (s : ViewState) : ViewState :=
  if s.mode = ToolMode.CROP then s.applyCrop copyRect else s

end ViewState

/-- Pre-digest cache key `f"{file_path}_{stat.st_mtime}"` of
`get_cache_path` (`src/thumbnail_cache.py` line 33).  `mtime` is the
decimal rendering of the modification-time float; distinct modification
times render to distinct strings. -/
def cacheKey (path mtime : String) : String :=
  path ++ "_" ++ mtime

/-- `get_cache_path` (`src/thumbnail_cache.py` lines 27-35): the cache
directory joined with the hex digest of the key plus `.jpg`.  `md5hex`
is the `hashlib.md5(...).hexdigest()` collaborator. -/
def getCachePath (md5hex : String → String) (cacheDir path mtime : String) : String :=
  cacheDir ++ "/" ++ md5hex (cacheKey path mtime) ++ ".jpg"

/-- Result of one `load_or_create_thumbnail` call: the returned pixmap,
whether the original file was decoded (`QPixmap(path)` was called), and
the cache contents afterwards. -/
structure ThumbResult where
  result : Option Img
  decodedOriginal : Bool
  cacheAfter : String → Option Img

/-- `load_or_create_thumbnail` (`src/thumbnail_cache.py` lines 37-57):
if a file exists at the computed cache path, load and return it (the
original is not decoded); otherwise decode the original (`none` models a
null pixmap → return `None`), downscale it with the `scale256`
collaborator (`QPixmap.scaled(256, 256, KeepAspectRatio, Smooth)`),
store it at the cache path and return it.  `cache` maps a cache path to
the stored thumbnail, `none` meaning no file exists there. -/
def load_or_create_thumbnail (md5hex : String → String) (scale256 : Img → Img)
    (cacheDir : String) (cache : String → Option Img)
    (decode : String → Option Img) (path mtime : String) : ThumbResult :=
  let cp := getCachePath md5hex cacheDir path mtime
  match cache cp with
  | some cached => ⟨some cached, false, cache⟩
  | none =>
      match decode path with
      | none => ⟨none, true, cache⟩
      | some pixmap =>
          let thumb := scale256 pixmap
          ⟨some thumb, true, fun q => if q = cp then some thumb else cache q⟩

/-- The `f"Found {total} images. Loading thumbnails..."` progress text
(`src/thumbnail_dialog.py` line 53). -/
def foundMsg (total : Nat) : String :=
  s!"Found {total} images. Loading thumbnails..."

/-- The `f"Loading thumbnails... {i + 1}/{total}"` per-file progress
text (`src/thumbnail_dialog.py` line 57). -/
def loadingMsg (iSucc total : Nat) : String :=
  s!"Loading thumbnails... {iSucc}/{total}"

/-- Events emitted through `ThumbnailWorker.Signals`
(`src/thumbnail_dialog.py` lines 28-32). -/
inductive ScanEvent where
  | progress (msg : String)
  | thumbnail_ready (path : String) (thumb : Img)
  | finished
  | error (msg : String)

/-- Per-file loop of `ThumbnailWorker.run` (`src/thumbnail_dialog.py`
lines 54-61).  `loadOrCreate` is the outcome of
`load_or_create_thumbnail` for each path: `Except.ok (some thumb)` when
it returns a pixmap, `Except.ok none` when it returns `None` on a
decode failure (the file is skipped silently), and `Except.error e`
when it raises — `get_cache_path` calls `os.stat`, which raises
`FileNotFoundError` on a file deleted between enumeration and
thumbnailing, and `mkdir`/`save` can raise `OSError`.  A raise aborts
the loop after the already-emitted per-file progress message and
propagates to `run`'s `except` handler; the result pairs the emitted
events with the propagated exception, if any.  `cancelled` gives the
value of the `_is_cancelled` flag at its n-th read, counted from
`pollIdx` — a true loop-head read breaks out, and a true read in
`if thumb and not self._is_cancelled` suppresses the ready event
(Python's `and` short-circuits, so that read only happens when a
thumbnail exists). -/
def workerLoop (loadOrCreate : String → Except String (Option Img))
    (cancelled : Nat → Bool) (total : Nat) :
    List String → Nat → Nat → List ScanEvent × Option String
  | [], _, _ => ([], none)
  | path :: rest, i, pollIdx =>
      if cancelled pollIdx then ([], none)
      else
        let ev := ScanEvent.progress (loadingMsg (i + 1) total)
        match loadOrCreate path with
        | Except.error e => ([ev], some e)
        | Except.ok (some thumb) =>
            if cancelled (pollIdx + 1) then
              let rec1 := workerLoop loadOrCreate cancelled total rest (i + 1) (pollIdx + 2)
              (ev :: rec1.1, rec1.2)
            else
              let rec1 := workerLoop loadOrCreate cancelled total rest (i + 1) (pollIdx + 2)
              (ev :: ScanEvent.thumbnail_ready path thumb :: rec1.1, rec1.2)
        | Except.ok none =>
            let rec1 := workerLoop loadOrCreate cancelled total rest (i + 1) (pollIdx + 1)
            (ev :: rec1.1, rec1.2)

/-- `ThumbnailWorker.run` (`src/thumbnail_dialog.py` lines 44-64).

Modelled from the spec: `NavigatorModel.get_image_paths_recursive` and
`get_image_paths_flat`, called on line 47/49, are absent from `src/`
(only this caller is present); the enumeration is therefore modelled as
an arbitrary outcome `enum` — a list of paths, or an exception raised
while enumerating the directory.  The `try` block spans the whole body,
so `except` catches both an enumeration exception and a
`load_or_create_thumbnail` exception raised mid-loop, and emits a
single `error` event for either (no `finished` follows in that case).
On an exception-free run the worker checks the cancel flag, emits the
"Found N images..." progress message, runs the per-file loop and
finally emits `finished` (the `break` on cancellation still falls
through to `finished`). -/
def thumbnailWorkerRun (enum : Except String (List String))
    (loadOrCreate : String → Except String (Option Img)) (cancelled : Nat → Bool) :
    List ScanEvent :=
  match enum with
  | Except.error e => [ScanEvent.error e]
  | Except.ok paths =>
      if cancelled 0 then []
      else
        ScanEvent.progress (foundMsg paths.length) ::
          (match workerLoop loadOrCreate cancelled paths.length paths 0 1 with
            | (evs, none) => evs ++ [ScanEvent.finished]
            | (evs, some e) => evs ++ [ScanEvent.error e])

/-- The per-file trace of an uncancelled scan over `paths`: for each
file in order, one per-file progress message followed by its ready
event when the thumbnail loads and by nothing when the decode returns
no pixmap — until the first file whose thumbnailing raises, whose
exception is paired with the events emitted up to and including its
progress message (the remaining files are not processed). -/
def expectedFileEvents (loadOrCreate : String → Except String (Option Img))
    (total : Nat) : List String → Nat → List ScanEvent × Option String
  | [], _ => ([], none)
  | path :: rest, i =>
      let ev := ScanEvent.progress (loadingMsg (i + 1) total)
      match loadOrCreate path with
      | Except.error e => ([ev], some e)
      | Except.ok (some thumb) =>
          let rec1 := expectedFileEvents loadOrCreate total rest (i + 1)
          (ev :: ScanEvent.thumbnail_ready path thumb :: rec1.1, rec1.2)
      | Except.ok none =>
          let rec1 := expectedFileEvents loadOrCreate total rest (i + 1)
          (ev :: rec1.1, rec1.2)

/-! ## Concrete probe values used by counterexamples and witnesses -/

/-- A 1×1 image whose only pixel is `(r, g, b) = (1, 255, 255)`: the
white-balance window around `(0, 0)` samples exactly this pixel, so the
channel means are `1`, `255`, `255`. -/
def wbProbeImg : Img := ⟨1, 1, fun _ _ => ⟨1, 255, 255⟩⟩

/-- Codec that decodes every path to `wbProbeImg`. -/
def probeDecode : String → Option Img := fun _ => some wbProbeImg

/-- The model state right after `load_from_path` succeeds on the probe
image: `original = current = wbProbeImg`, both accumulators zero. -/
def loadedProbe : ImageModelState :=
  (ImageModelState.load_from_path probeDecode (ImageModelState.init none) "p.png").2

/-! ## C1 — white-balance gain range -/

/-- C1 (counterexample): on a loaded 1×1 image whose pixel is
`(1, 255, 255)`, `ImageModel.apply_white_balance_from_point` at `(0, 0)`
computes `gain_r = mean_g / mean_r = 255`, far outside `[0.25, 4.0]` —
the method never clamps its gains (the clamp exists only in the unused
`WhiteBalanceHelper`). Constants instantiated at 11 and 200, the
`WhiteBalanceHelper` defaults; the window size does not affect the
single-pixel window of a 1×1 image. -/
theorem wb_model_gain_unclamped_cex :
    wbGainsModel wbProbeImg 0 0 11 200 = some (255, 1) ∧
      ¬ ((1/4 : ℚ) ≤ 255 ∧ (255 : ℚ) ≤ 4) := by
  constructor
  · norm_num [wbGainsModel, wbSamples, wbOffsets, wbWindow, wbProbeImg,
      List.flatMap, List.range, List.range.loop, List.filterMap]
  · norm_num

/-- C1 (amended): the gains actually computed by
`ImageModel.apply_white_balance_from_point` are the unclamped ratios of
channel means (defaulting to 1.0 on a zero mean, no-op on zero mean
green) and can lie outside `[0.25, 4.0]`; the clamp into `[0.25, 4.0]`
claimed by the spec holds for `WhiteBalanceHelper.apply_white_balance`
(`src/image_helpers.py`), whose computed gains always lie in that
interval regardless of the sampled pixel values. -/
theorem wb_helper_gains_clamped (img : Img) (x y : ℤ) (maxHalf minDiv : Nat)
    (gainR gainB : ℚ) (h : wbGainsHelper img x y maxHalf minDiv = some (gainR, gainB)) :
    (1/4 ≤ gainR ∧ gainR ≤ 4) ∧ (1/4 ≤ gainB ∧ gainB ≤ 4) := by
  have hclamp : ∀ q : ℚ, 1/4 ≤ min 4 (max (1/4) q) ∧ min 4 (max (1/4) q) ≤ 4 := by
    intro q
    exact ⟨le_min (by norm_num) (le_max_left _ _), min_le_left _ _⟩
  simp only [wbGainsHelper] at h
  split at h
  · exact absurd h (by simp)
  · split at h
    · split at h
      · exact absurd h (by simp)
      · rw [Option.some_inj, Prod.mk.injEq] at h
        obtain ⟨hr, hb⟩ := h
        constructor
        · rw [← hr]
          split
          · exact hclamp _
          · norm_num
        · rw [← hb]
          split
          · exact hclamp _
          · norm_num
    · exact absurd h (by simp)

/-- C1 (witness): the helper's clamped gains on the probe image are
`(4, 1)`, inside the interval. -/
theorem wb_helper_gains_clamped_witness :
    ((1:ℚ)/4 ≤ 4 ∧ (4:ℚ) ≤ 4) ∧ ((1:ℚ)/4 ≤ 1 ∧ (1:ℚ) ≤ 4) :=
  wb_helper_gains_clamped wbProbeImg 0 0 11 200 4 1 (by
    norm_num [wbGainsHelper, wbSamples, wbOffsets, wbWindow, wbProbeImg, Img.isNull,
      List.flatMap, List.range, List.range.loop, List.filterMap])

/-! ## C3 — white-balance bake-in semantics -/

/-- A loaded probe state taken through `adjust_exposure(1)` (with the
power collaborator instantiated to the constant 1, so the pixel data is
unchanged) and then `rotate_arbitrary(5)` (with the identity resampler):
it reaches `total_exposure_ev = 1` and `rotation_angle = 5` with
`current = original = wbProbeImg` up to pixel identity. -/
def editedProbe : ImageModelState :=
  ImageModelState.rotate_arbitrary (fun _ i => i)
    (ImageModelState.adjust_exposure (fun _ => 1) loadedProbe 1) 5

/-- C3 (counterexample): applying white balance to `editedProbe`
succeeds (it resets `rotation_angle` from 5 to 0 and bakes the result
into `original`), yet `total_exposure_ev` stays at 1 — it is not reset
to zero as the claim states. -/
theorem wb_keeps_exposure_accumulator_cex :
    editedProbe.total_exposure_ev = 1 ∧ editedProbe.rotation_angle = 5 ∧
      (editedProbe.apply_white_balance_from_point 11 200 0 0).rotation_angle = 0 ∧
      (editedProbe.apply_white_balance_from_point 11 200 0 0).total_exposure_ev = 1 ∧
      (1 : ℚ) ≠ 0 := by
  have hgain : wbGainsModel wbProbeImg 0 0 11 200 = some (255, 1) := by
    norm_num [wbGainsModel, wbSamples, wbOffsets, wbWindow, wbProbeImg,
      List.flatMap, List.range, List.range.loop, List.filterMap]
  refine ⟨by norm_num [editedProbe, loadedProbe, probeDecode, ImageModelState.init,
      ImageModelState.load_from_path, ImageModelState.adjust_exposure,
      ImageModelState.rotate_arbitrary],
    by norm_num [editedProbe, loadedProbe, probeDecode, ImageModelState.init,
      ImageModelState.load_from_path, ImageModelState.adjust_exposure,
      ImageModelState.rotate_arbitrary], ?_, ?_, by norm_num⟩ <;>
    simp [editedProbe, loadedProbe, probeDecode, ImageModelState.init,
      ImageModelState.load_from_path, ImageModelState.adjust_exposure,
      ImageModelState.rotate_arbitrary, ImageModelState.apply_white_balance_from_point,
      hgain]

/-- C3 (amended): after a successful `apply_white_balance_from_point` on
a loaded image, the corrected result becomes both the new `current` and
the new `original`, and `rotation_angle` is reset to zero —
`total_exposure_ev` is left unchanged (it is not reset). -/
theorem wb_bake_in_state_effect (maxHalf minDiv : Nat) (s : ImageModelState)
    (img orig : Img) (x y : ℤ) (gainR gainB : ℚ)
    (hc : s.current = some img) (ho : s.original = some orig)
    (hg : wbGainsModel img x y maxHalf minDiv = some (gainR, gainB)) :
    (s.apply_white_balance_from_point maxHalf minDiv x y).current =
        some (applyGains gainR gainB img) ∧
      (s.apply_white_balance_from_point maxHalf minDiv x y).original =
        some (applyGains gainR gainB img) ∧
      (s.apply_white_balance_from_point maxHalf minDiv x y).rotation_angle = 0 ∧
      (s.apply_white_balance_from_point maxHalf minDiv x y).total_exposure_ev =
        s.total_exposure_ev := by
  simp [ImageModelState.apply_white_balance_from_point, hc, ho, hg]

/-- C3 (witness): the amended statement instantiated on the edited probe
state. -/
theorem wb_bake_in_state_effect_witness :
    (editedProbe.apply_white_balance_from_point 11 200 0 0).current =
        some (applyGains 255 1 wbProbeImg) ∧
      (editedProbe.apply_white_balance_from_point 11 200 0 0).original =
        some (applyGains 255 1 wbProbeImg) ∧
      (editedProbe.apply_white_balance_from_point 11 200 0 0).rotation_angle = 0 ∧
      (editedProbe.apply_white_balance_from_point 11 200 0 0).total_exposure_ev =
        editedProbe.total_exposure_ev :=
  wb_bake_in_state_effect 11 200 editedProbe wbProbeImg wbProbeImg 0 0 255 1
    (by simp [editedProbe, loadedProbe, probeDecode, ImageModelState.init,
      ImageModelState.load_from_path, ImageModelState.adjust_exposure,
      ImageModelState.rotate_arbitrary])
    (by simp [editedProbe, loadedProbe, probeDecode, ImageModelState.init,
      ImageModelState.load_from_path, ImageModelState.adjust_exposure,
      ImageModelState.rotate_arbitrary])
    (by norm_num [wbGainsModel, wbSamples, wbOffsets, wbWindow, wbProbeImg,
      List.flatMap, List.range, List.range.loop, List.filterMap])

/-! ## C6 — exposure adjustment round trip -/

/-- C6: on a loaded image, `adjust_exposure(d)` followed by
`adjust_exposure(-d)` returns `total_exposure_ev` exactly to its
starting value (exact rational accumulation), and the resulting
`current` pixmap is exactly the single recomputation of the original at
the starting EV — for any power collaborator, because each call
recomputes from `original` with the total accumulated EV. -/
theorem adjust_exposure_roundtrip (pow2 : ℚ → ℚ) (s : ImageModelState)
    (orig : Img) (d : ℚ) (h : s.original = some orig) :
    ((s.adjust_exposure pow2 d).adjust_exposure pow2 (-d)).total_exposure_ev =
        s.total_exposure_ev ∧
      ((s.adjust_exposure pow2 d).adjust_exposure pow2 (-d)).current =
        some (ImageModelState.exposeImg (pow2 s.total_exposure_ev) orig) := by
  simp [ImageModelState.adjust_exposure, h]

/-- C6 (witness): round trip with `d = 1` on the loaded probe state. -/
theorem adjust_exposure_roundtrip_witness :
    ((loadedProbe.adjust_exposure (fun _ => 1) 1).adjust_exposure
          (fun _ => 1) (-1)).total_exposure_ev = loadedProbe.total_exposure_ev ∧
      ((loadedProbe.adjust_exposure (fun _ => 1) 1).adjust_exposure
          (fun _ => 1) (-1)).current =
        some (ImageModelState.exposeImg 1 wbProbeImg) :=
  adjust_exposure_roundtrip (fun _ => 1) loadedProbe wbProbeImg 1
    (by simp [loadedProbe, probeDecode, ImageModelState.init,
      ImageModelState.load_from_path])

/-! ## C10 — flips are discarded by original-based recomputation -/

/-- C10: `flip_horizontal` touches only `current` (and `size`), while
`adjust_exposure` recomputes `current` from `original` using the total
accumulated EV; hence on a loaded image a flip followed by
`adjust_exposure(d)` produces exactly the same `current` pixmap as
`adjust_exposure(d)` alone — the flip is discarded. -/
theorem flip_discarded_by_exposure (pow2 : ℚ → ℚ) (s : ImageModelState)
    (orig : Img) (d : ℚ) (h : s.original = some orig) :
    ((s.flip_horizontal).adjust_exposure pow2 d).current =
      (s.adjust_exposure pow2 d).current := by
  cases hc : s.current <;>
    simp [ImageModelState.flip_horizontal, ImageModelState.adjust_exposure, h, hc]

/-- C10 (witness): on the loaded probe state with `d = 1`. -/
theorem flip_discarded_by_exposure_witness :
    ((loadedProbe.flip_horizontal).adjust_exposure (fun _ => 1) 1).current =
      (loadedProbe.adjust_exposure (fun _ => 1) 1).current :=
  flip_discarded_by_exposure (fun _ => 1) loadedProbe wbProbeImg 1
    (by simp [loadedProbe, probeDecode, ImageModelState.init,
      ImageModelState.load_from_path])

/-! ## C7 — 90° rotation round trip -/

/-- Subtracting an integer multiple of 360 does not change the Python
`% 360` representative. -/
theorem qmod_sub_intCast_mul (a : ℚ) (m : ℤ) :
    qmod (a - 360 * m) 360 = qmod a 360 := by
  unfold qmod
  have hdiv : (a - 360 * m) / 360 = a / 360 - m := by ring
  rw [hdiv, Int.floor_sub_int]
  push_cast
  ring

/-- Composing the two `% 360` updates of the 90° rotations gives back the
`% 360` representative of the starting angle. -/
theorem qmod_rotate_roundtrip (a : ℚ) :
    qmod (qmod (a + 90) 360 - 90) 360 = qmod a 360 := by
  have h : qmod (a + 90) 360 - 90 = a - 360 * (⌊(a + 90) / 360⌋ : ℤ) := by
    unfold qmod; ring
  rw [h, qmod_sub_intCast_mul]

/-- Values already in `[0, 360)` are fixed by Python `% 360`. -/
theorem qmod_eq_self {a : ℚ} (h0 : 0 ≤ a) (h1 : a < 360) : qmod a 360 = a := by
  unfold qmod
  have hfl : ⌊a / 360⌋ = 0 := by
    rw [Int.floor_eq_zero_iff]
    constructor
    · positivity
    · rw [div_lt_one (by norm_num)]; exact h1
  rw [hfl]
  ring

/-- A 90° clockwise rotation followed by a 90° counterclockwise rotation
is the identity permutation on every in-bounds pixel. -/
theorem rotate90_roundtrip (img : Img) :
    Img.EqOn (ImageModelState.rotate90CCW (ImageModelState.rotate90CW img)) img := by
  refine ⟨rfl, rfl, fun x y hx hy => ?_⟩
  simp only [ImageModelState.rotate90CCW, ImageModelState.rotate90CW]
  have : img.height - 1 - (img.height - 1 - y) = y := by
    simp only [ImageModelState.rotate90CCW, ImageModelState.rotate90CW] at hy
    omega
  rw [this]

/-- C7 (counterexample): `rotation_angle` is not always restored.
Starting from the loaded probe state, `rotate_arbitrary(-10)` drives the
accumulator to `-10` (no normalization is applied there); the clockwise
rotation then stores `(-10 + 90) % 360 = 80` and the counterclockwise
rotation `(80 - 90) % 360 = 350 ≠ -10`. Pixel content is restored, but
the accumulator comes back only modulo 360. -/
theorem rotate_roundtrip_angle_cex :
    (ImageModelState.rotate_arbitrary (fun _ i => i) loadedProbe
        (-10)).rotation_angle = -10 ∧
      (((ImageModelState.rotate_arbitrary (fun _ i => i) loadedProbe
            (-10)).rotate_90_clockwise).rotate_90_counterclockwise).rotation_angle =
        350 ∧
      (350 : ℚ) ≠ -10 := by
  have h1 : (ImageModelState.rotate_arbitrary (fun _ i => i) loadedProbe
      (-10)).rotation_angle = -10 := by
    norm_num [ImageModelState.rotate_arbitrary, loadedProbe, probeDecode,
      ImageModelState.init, ImageModelState.load_from_path]
  have hcur : (ImageModelState.rotate_arbitrary (fun _ i => i) loadedProbe
      (-10)).current = some wbProbeImg := by
    simp [ImageModelState.rotate_arbitrary, loadedProbe, probeDecode,
      ImageModelState.init, ImageModelState.load_from_path]
  have h80 : qmod ((-10 : ℚ) + 90) 360 = 80 := by
    norm_num [qmod]
  have h350 : qmod ((80 : ℚ) - 90) 360 = 350 := by
    norm_num [qmod, show ⌊(-10 : ℚ) / 360⌋ = -1 by norm_num]
  refine ⟨h1, ?_, by norm_num⟩
  simp [ImageModelState.rotate_90_clockwise, ImageModelState.rotate_90_counterclockwise,
    hcur, h1, h80, h350]

/-- C7 (amended): on a loaded image, `rotate_90_clockwise` followed by
`rotate_90_counterclockwise` restores the current pixmap's pixel content
and dimensions exactly (integer 90° rotation is a lossless index
permutation), and returns `rotation_angle` to its starting value reduced
`% 360` into `[0, 360)` — equal to the starting value whenever that
value already lies in `[0, 360)` (as after a load or any sequence of 90°
rotations), but not for accumulator values `rotate_arbitrary` has pushed
outside that interval. -/
theorem rotate90_roundtrip_state (s : ImageModelState) (img : Img)
    (h : s.current = some img) :
    ((s.rotate_90_clockwise).rotate_90_counterclockwise).current =
        some (ImageModelState.rotate90CCW (ImageModelState.rotate90CW img)) ∧
      Img.EqOn (ImageModelState.rotate90CCW (ImageModelState.rotate90CW img)) img ∧
      ((s.rotate_90_clockwise).rotate_90_counterclockwise).rotation_angle =
        qmod s.rotation_angle 360 ∧
      (0 ≤ s.rotation_angle → s.rotation_angle < 360 →
        ((s.rotate_90_clockwise).rotate_90_counterclockwise).rotation_angle =
          s.rotation_angle) := by
  have hrot : ((s.rotate_90_clockwise).rotate_90_counterclockwise).rotation_angle =
      qmod s.rotation_angle 360 := by
    simp [ImageModelState.rotate_90_clockwise,
      ImageModelState.rotate_90_counterclockwise, h, qmod_rotate_roundtrip]
  refine ⟨?_, rotate90_roundtrip img, hrot, fun h0 h1 => ?_⟩
  · simp [ImageModelState.rotate_90_clockwise,
      ImageModelState.rotate_90_counterclockwise, h]
  · rw [hrot, qmod_eq_self h0 h1]

/-- C7 (witness): the amended statement instantiated on the loaded probe
state, whose starting angle 0 lies in `[0, 360)` and is restored. -/
theorem rotate90_roundtrip_state_witness :
    ((loadedProbe.rotate_90_clockwise).rotate_90_counterclockwise).current =
        some (ImageModelState.rotate90CCW (ImageModelState.rotate90CW wbProbeImg)) ∧
      Img.EqOn (ImageModelState.rotate90CCW (ImageModelState.rotate90CW wbProbeImg))
        wbProbeImg ∧
      ((loadedProbe.rotate_90_clockwise).rotate_90_counterclockwise).rotation_angle =
        qmod loadedProbe.rotation_angle 360 ∧
      (0 ≤ loadedProbe.rotation_angle → loadedProbe.rotation_angle < 360 →
        ((loadedProbe.rotate_90_clockwise).rotate_90_counterclockwise).rotation_angle =
          loadedProbe.rotation_angle) :=
  rotate90_roundtrip_state loadedProbe wbProbeImg
    (by simp [loadedProbe, probeDecode, ImageModelState.init,
      ImageModelState.load_from_path])

/-! ## C4 — selection active flag vs. degeneracy -/

/-- A viewport state sitting in CROP mode over the loaded probe image,
with no pending drag and an empty selection. -/
def cropProbeView : ViewState :=
  ⟨ToolMode.CROP, none, CropAreaState.init, loadedProbe⟩

/-- Evaluation fact shared by the crop scenarios: the normalized
integer rectangle of a degenerate drag from `(10, 10)` to `(10, 10)` is
`QRect(10, 10, 0, 0)` — zero width, zero height, zero area. -/
theorem normalizedRect_degenerate :
    normalizedRect ((10 : ℚ), (10 : ℚ)) ((10 : ℚ), (10 : ℚ)) = ⟨10, 10, 0, 0⟩ := by
  norm_num [normalizedRect, qRound]

/-- C4 (counterexample): the invariant "active iff non-degenerate" does
not hold in every reachable state. From CROP mode, pressing at
`(10, 10)` and releasing at the same point reaches a state whose
selection is active while its rect has zero width, zero height and zero
area — `CropArea.set_rect` activates unconditionally. -/
theorem crop_active_zero_area_cex :
    ((cropProbeView.mousePressLeft 11 200 ((10 : ℚ), (10 : ℚ))).mouseReleaseLeft
        ((10 : ℚ), (10 : ℚ))).crop.is_active = true ∧
      ((cropProbeView.mousePressLeft 11 200 ((10 : ℚ), (10 : ℚ))).mouseReleaseLeft
          ((10 : ℚ), (10 : ℚ))).crop.rect = ⟨10, 10, 0, 0⟩ ∧
      (10 : ℤ) * 0 = 0 := by
  refine ⟨?_, ?_, by norm_num⟩ <;>
    simp [cropProbeView, ViewState.mousePressLeft, ViewState.mouseReleaseLeft,
      CropAreaState.reset, CropAreaState.set_rect, CropAreaState.init,
      normalizedRect_degenerate]

/-- C4 (amended): the selection's active flag is not tied to
non-degeneracy. Releasing any crop drag — including one whose start and
end points coincide or are collinear — unconditionally activates the
selection and stores the normalized rectangle, zero-area or not; the
active flag is cleared only by `reset`. (Degenerate selections are
instead filtered at commit time, and then only when both width and
height are zero, by `_apply_crop`'s `isNull` test.) -/
theorem crop_release_always_activates (s : ViewState) (p0 p : ℚ × ℚ)
    (h : s.startPos = some p0) :
    (s.mouseReleaseLeft p).crop.is_active = true ∧
      (s.mouseReleaseLeft p).crop.rect = normalizedRect p0 p := by
  simp [ViewState.mouseReleaseLeft, h, CropAreaState.set_rect]

/-- C4 (witness): releasing the degenerate drag of `cropProbeView`
activates a `QRect(10, 10, 0, 0)` selection. -/
theorem crop_release_always_activates_witness :
    ((cropProbeView.mousePressLeft 11 200 ((10 : ℚ), (10 : ℚ))).mouseReleaseLeft
        ((10 : ℚ), (10 : ℚ))).crop.is_active = true ∧
      ((cropProbeView.mousePressLeft 11 200 ((10 : ℚ), (10 : ℚ))).mouseReleaseLeft
          ((10 : ℚ), (10 : ℚ))).crop.rect =
        normalizedRect ((10 : ℚ), (10 : ℚ)) ((10 : ℚ), (10 : ℚ)) :=
  crop_release_always_activates
    (cropProbeView.mousePressLeft 11 200 ((10 : ℚ), (10 : ℚ)))
    ((10 : ℚ), (10 : ℚ)) ((10 : ℚ), (10 : ℚ))
    (by simp [cropProbeView, ViewState.mousePressLeft])

/-! ## C5 — zero-area crop commit is cancelled -/

/-- C5: from any viewport state in CROP mode, pressing at `(10, 10)`,
releasing at `(10, 10)` and hitting Enter cancels the crop: the rect
stored by the release is `QRect(10, 10, 0, 0)`, whose `isNull` test
makes `_apply_crop` skip `finalize_crop` and drop back to NONE — the
image model (in particular its current pixmap) is unchanged, for any
crop collaborator and white-balance constants. -/
theorem crop_zero_area_enter_cancels (copyRect : Img → Rect → Img)
    (maxHalf minDiv : Nat) (s : ViewState) (h : s.mode = ToolMode.CROP) :
    (((s.mousePressLeft maxHalf minDiv ((10 : ℚ), (10 : ℚ))).mouseReleaseLeft
          ((10 : ℚ), (10 : ℚ))).keyEnter copyRect).mode = ToolMode.NONE ∧
      (((s.mousePressLeft maxHalf minDiv ((10 : ℚ), (10 : ℚ))).mouseReleaseLeft
          ((10 : ℚ), (10 : ℚ))).keyEnter copyRect).model = s.model := by
  simp [ViewState.mousePressLeft, ViewState.mouseReleaseLeft, ViewState.keyEnter,
    ViewState.applyCrop, ViewState.set_tool_mode, ViewState.clearSelection,
    CropAreaState.set_rect, CropAreaState.reset, Rect.isNull, h,
    normalizedRect_degenerate]

/-- C5 (witness): the scenario run on the concrete CROP-mode probe
state. -/
theorem crop_zero_area_enter_cancels_witness :
    (((cropProbeView.mousePressLeft 11 200 ((10 : ℚ), (10 : ℚ))).mouseReleaseLeft
          ((10 : ℚ), (10 : ℚ))).keyEnter (fun img _ => img)).mode = ToolMode.NONE ∧
      (((cropProbeView.mousePressLeft 11 200 ((10 : ℚ), (10 : ℚ))).mouseReleaseLeft
          ((10 : ℚ), (10 : ℚ))).keyEnter (fun img _ => img)).model =
        cropProbeView.model :=
  crop_zero_area_enter_cancels (fun img _ => img) 11 200 cropProbeView rfl

/-! ## C8 — navigator wrap-around -/

/-- Python `(-1) % n = n - 1` for a positive modulus. -/
theorem neg_one_emod (n : ℤ) (hn : 1 ≤ n) : (-1 : ℤ) % n = n - 1 := by
  have h1 : (-1 : ℤ) % n = (n - 1 + n * (-1)) % n := by ring_nf
  rw [h1, Int.add_mul_emod_self_left]
  exact Int.emod_eq_of_lt (by omega) (by omega)

/-- C8: wrap-around navigation. With non-empty path names: `navigate
"next"` from the last index returns the first path and `navigate
"previous"` from index 0 returns the last path; in a single-file list
both return that one path; on an empty list both return `None`. -/
theorem navigator_wraparound (s : NavigatorState)
    (hne : ∀ p ∈ s.image_paths, p ≠ "") :
    (s.current_file_index = (s.image_paths.length : ℤ) - 1 → s.image_paths ≠ [] →
        (s.navigate "next").1 = s.image_paths.head?) ∧
      (s.current_file_index = 0 → s.image_paths ≠ [] →
        (s.navigate "previous").1 = s.image_paths.getLast?) ∧
      (s.image_paths.length = 1 → s.current_file_index = 0 →
        (s.navigate "next").1 = s.image_paths.head? ∧
          (s.navigate "previous").1 = s.image_paths.head?) ∧
      (s.image_paths = [] →
        (s.navigate "next").1 = none ∧ (s.navigate "previous").1 = none) := by
  have hdir : ("previous" : String) ≠ "next" := by decide
  refine ⟨?_, ?_, ?_, ?_⟩
  · intro hidx hnil
    have hn : 1 ≤ s.image_paths.length := List.length_pos.mpr hnil
    have hmod : ((s.image_paths.length : ℤ) - 1 + 1) % (s.image_paths.length : ℤ) = 0 := by
      rw [sub_add_cancel, Int.emod_self]
    have hnext : s.get_next_path = some (s.image_paths.getD 0 "") := by
      simp [NavigatorState.get_next_path, hnil, hidx, hmod,
        show ¬ ((s.image_paths.length : ℤ) - 1 < 0) by omega]
    obtain ⟨a, t, ht⟩ : ∃ a t, s.image_paths = a :: t := by
      cases hl : s.image_paths with
      | nil => exact absurd hl hnil
      | cons a t => exact ⟨a, t, rfl⟩
    have ha : a ≠ "" := hne a (by rw [ht]; exact List.mem_cons_self a t)
    simp [NavigatorState.navigate, hnext, ht, ha]
  · intro hidx hnil
    have hn : 1 ≤ s.image_paths.length := List.length_pos.mpr hnil
    have hmod : (-1 : ℤ) % (s.image_paths.length : ℤ) =
        (s.image_paths.length : ℤ) - 1 :=
      neg_one_emod _ (by exact_mod_cast hn)
    have htn : (((s.image_paths.length : ℤ) - 1)).toNat = s.image_paths.length - 1 := by
      omega
    have hlt : s.image_paths.length - 1 < s.image_paths.length := by omega
    have hprev : s.get_previous_path =
        some (s.image_paths[s.image_paths.length - 1]) := by
      simp [NavigatorState.get_previous_path, hnil, hidx, hmod, htn,
        List.getD_eq_getElem?_getD, List.getElem?_eq_getElem hlt]
    have hmem : s.image_paths[s.image_paths.length - 1] ∈ s.image_paths :=
      List.getElem_mem hlt
    have hlast : s.image_paths.getLast? =
        some (s.image_paths[s.image_paths.length - 1]) := by
      rw [List.getLast?_eq_getElem?, List.getElem?_eq_getElem hlt]
    simp [NavigatorState.navigate, hdir, hprev, hlast, hne _ hmem]
  · intro hlen hidx
    obtain ⟨a, ht⟩ : ∃ a, s.image_paths = [a] := by
      cases hl : s.image_paths with
      | nil => rw [hl] at hlen; simp at hlen
      | cons a t =>
          rw [hl] at hlen
          simp only [List.length_cons] at hlen
          have ht0 : t = [] := List.length_eq_zero.mp (by omega)
          exact ⟨a, by rw [ht0]⟩
    have ha : a ≠ "" := hne a (by rw [ht]; exact List.mem_cons_self a [])
    constructor
    · simp [NavigatorState.navigate, NavigatorState.get_next_path, ht, hidx, ha]
    · simp [NavigatorState.navigate, NavigatorState.get_previous_path, ht, hidx, ha,
        hdir]
  · intro hnil
    constructor <;>
      simp [NavigatorState.navigate, NavigatorState.get_next_path,
        NavigatorState.get_previous_path, hnil, hdir]

/-- C8 (witness): a two-file navigator positioned on the last file wraps
to the first; positioned on the first, `previous` wraps to the last; a
one-file navigator returns its single file both ways; the empty
navigator returns `None`. -/
theorem navigator_wraparound_witness :
    ((NavigatorState.mk ["a.jpg", "b.jpg"] 1).current_file_index =
        ((NavigatorState.mk ["a.jpg", "b.jpg"] 1).image_paths.length : ℤ) - 1 →
      (NavigatorState.mk ["a.jpg", "b.jpg"] 1).image_paths ≠ [] →
      ((NavigatorState.mk ["a.jpg", "b.jpg"] 1).navigate "next").1 =
        (NavigatorState.mk ["a.jpg", "b.jpg"] 1).image_paths.head?) ∧
      ((NavigatorState.mk ["a.jpg", "b.jpg"] 1).current_file_index = 0 →
        (NavigatorState.mk ["a.jpg", "b.jpg"] 1).image_paths ≠ [] →
        ((NavigatorState.mk ["a.jpg", "b.jpg"] 1).navigate "previous").1 =
          (NavigatorState.mk ["a.jpg", "b.jpg"] 1).image_paths.getLast?) ∧
      ((NavigatorState.mk ["a.jpg", "b.jpg"] 1).image_paths.length = 1 →
        (NavigatorState.mk ["a.jpg", "b.jpg"] 1).current_file_index = 0 →
        ((NavigatorState.mk ["a.jpg", "b.jpg"] 1).navigate "next").1 =
            (NavigatorState.mk ["a.jpg", "b.jpg"] 1).image_paths.head? ∧
          ((NavigatorState.mk ["a.jpg", "b.jpg"] 1).navigate "previous").1 =
            (NavigatorState.mk ["a.jpg", "b.jpg"] 1).image_paths.head?) ∧
      ((NavigatorState.mk ["a.jpg", "b.jpg"] 1).image_paths = [] →
        ((NavigatorState.mk ["a.jpg", "b.jpg"] 1).navigate "next").1 = none ∧
          ((NavigatorState.mk ["a.jpg", "b.jpg"] 1).navigate "previous").1 = none) :=
  navigator_wraparound (NavigatorState.mk ["a.jpg", "b.jpg"] 1) (by decide)

/-! ## C2 — thumbnail scan worker protocol -/

/-- With the cancel flag never set, the per-file loop emits, for each
path in order, its progress message followed by its ready event exactly
when the thumbnail loads, stopping with the exception of the first file
whose thumbnailing raises. -/
theorem workerLoop_no_cancel (loadOrCreate : String → Except String (Option Img))
    (total : Nat) (paths : List String) : ∀ i pollIdx,
    workerLoop loadOrCreate (fun _ => false) total paths i pollIdx =
      expectedFileEvents loadOrCreate total paths i := by
  induction paths with
  | nil => intro i pollIdx; rfl
  | cons p rest ih =>
      intro i pollIdx
      simp only [workerLoop, expectedFileEvents, Bool.false_eq_true, if_false]
      cases loadOrCreate p with
      | error e => rfl
      | ok t => cases t <;> simp [ih]

/-- C2 (counterexample): an uncancelled scan can emit an `error` event
without any failure enumerating the directory, and then never emits
`finished`.  Enumeration succeeds with the single file "a.jpg", but
thumbnailing it raises (as `os.stat` does in `get_cache_path` when the
file is deleted between enumeration and thumbnailing); `run`'s `except`
turns that into an `error` event, so the trace is the found-message,
the per-file progress message, then `error` — no ready event and no
`finished`, contradicting the claimed protocol. -/
theorem thumbnail_worker_error_without_enum_failure_cex :
    thumbnailWorkerRun (Except.ok ["a.jpg"])
        (fun _ => Except.error "stat: file vanished") (fun _ => false) =
      [ScanEvent.progress (foundMsg 1), ScanEvent.progress (loadingMsg 1 1),
        ScanEvent.error "stat: file vanished"] := by
  rfl

/-- C2 (amended): protocol of an uncancelled scan. When enumerating the
directory fails, the worker emits exactly one `error` event and nothing
else.  When enumeration succeeds, the trace is exactly the
"Found N images..." progress message, then — for each file in order — a
per-file progress message followed by its `thumbnail_ready(path, image)`
event when the thumbnail loads (a silent skip when the decode returns no
pixmap), until either all files are processed and a final `finished`
event is emitted, or some file's thumbnailing raises (e.g. `os.stat` on
a file deleted mid-scan), in which case a single `error` event ends the
trace instead of `finished`.  So `error` is emitted either on an
enumeration failure or on a per-file exception caught by the same `try`
block. -/
theorem thumbnail_worker_protocol (enum : Except String (List String))
    (loadOrCreate : String → Except String (Option Img)) :
    thumbnailWorkerRun enum loadOrCreate (fun _ => false) =
      match enum with
      | Except.error e => [ScanEvent.error e]
      | Except.ok paths =>
          ScanEvent.progress (foundMsg paths.length) ::
            (match expectedFileEvents loadOrCreate paths.length paths 0 with
              | (evs, none) => evs ++ [ScanEvent.finished]
              | (evs, some e) => evs ++ [ScanEvent.error e]) := by
  cases enum with
  | error e => rfl
  | ok paths =>
      simp [thumbnailWorkerRun, workerLoop_no_cancel]

/-! ## C9 — thumbnail cache key and invalidation -/

/-- Appending distinct strings to a common prefix gives distinct
strings. -/
theorem append_right_ne {a x y : String} (h : x ≠ y) : a ++ x ≠ a ++ y := by
  intro he
  apply h
  have hd := congrArg String.data he
  simp only [String.data_append] at hd
  exact String.ext (List.append_cancel_left hd)

/-- The pre-digest cache key is injective in the rendered modification
time for a fixed path. -/
theorem cacheKey_mtime_injective (path : String) {m1 m2 : String} (h : m1 ≠ m2) :
    cacheKey path m1 ≠ cacheKey path m2 := by
  unfold cacheKey
  rw [String.append_assoc, String.append_assoc]
  exact append_right_ne (append_right_ne h)

/-- Distinct digests give distinct cache paths. -/
theorem getCachePath_ne (md5hex : String → String) (cacheDir : String)
    {p1 m1 p2 m2 : String} (h : md5hex (cacheKey p1 m1) ≠ md5hex (cacheKey p2 m2)) :
    getCachePath md5hex cacheDir p1 m1 ≠ getCachePath md5hex cacheDir p2 m2 := by
  unfold getCachePath
  intro he
  apply h
  have hd := congrArg String.data he
  simp only [String.data_append] at hd
  have h1 := List.append_cancel_left (List.append_cancel_right hd)
  exact String.ext h1

/-- C9: with a collision-free digest, the cache behaves as claimed.  A
first request on a cold cache decodes the original and stores the
thumbnail; a second request for the same `(path, mtime)` computes the
same cache path, hits the stored file and returns it without decoding
the original again; a request with any other rendered mtime computes a
different pre-digest key and a different cache path, misses, and decodes
(regenerates) again. -/
theorem thumbnail_cache_hit_and_invalidation (md5hex : String → String)
    (scale256 : Img → Img) (cacheDir : String) (cache : String → Option Img)
    (decode : String → Option Img) (path mtime mtime' : String) (img : Img)
    (hinj : Function.Injective md5hex)
    (hmiss : cache (getCachePath md5hex cacheDir path mtime) = none)
    (hdec : decode path = some img)
    (hm : mtime' ≠ mtime)
    (hmiss' : cache (getCachePath md5hex cacheDir path mtime') = none) :
    (load_or_create_thumbnail md5hex scale256 cacheDir cache decode path
        mtime).decodedOriginal = true ∧
      (load_or_create_thumbnail md5hex scale256 cacheDir
          (load_or_create_thumbnail md5hex scale256 cacheDir cache decode path
              mtime).cacheAfter decode path mtime).result = some (scale256 img) ∧
      (load_or_create_thumbnail md5hex scale256 cacheDir
          (load_or_create_thumbnail md5hex scale256 cacheDir cache decode path
              mtime).cacheAfter decode path mtime).decodedOriginal = false ∧
      cacheKey path mtime' ≠ cacheKey path mtime ∧
      getCachePath md5hex cacheDir path mtime' ≠ getCachePath md5hex cacheDir path mtime ∧
      (load_or_create_thumbnail md5hex scale256 cacheDir
          (load_or_create_thumbnail md5hex scale256 cacheDir cache decode path
              mtime).cacheAfter decode path mtime').decodedOriginal = true := by
  have hkey : cacheKey path mtime' ≠ cacheKey path mtime :=
    cacheKey_mtime_injective path hm
  have hpath : getCachePath md5hex cacheDir path mtime' ≠
      getCachePath md5hex cacheDir path mtime :=
    getCachePath_ne md5hex cacheDir (fun hc => hkey (hinj hc))
  have hfirst : load_or_create_thumbnail md5hex scale256 cacheDir cache decode path
      mtime = ⟨some (scale256 img), true,
        fun q => if q = getCachePath md5hex cacheDir path mtime
          then some (scale256 img) else cache q⟩ := by
    simp [load_or_create_thumbnail, hmiss, hdec]
  refine ⟨by rw [hfirst], ?_, ?_, hkey, hpath, ?_⟩
  · rw [hfirst]
    simp [load_or_create_thumbnail]
  · rw [hfirst]
    simp [load_or_create_thumbnail]
  · rw [hfirst]
    simp [load_or_create_thumbnail, hpath, hmiss', hdec]

/-- C9 (witness): the identity digest (injective) on a cold cache with a
decoder that yields the probe image, `mtime` rendered as "100.0" and
then touched to "200.0". -/
theorem thumbnail_cache_hit_and_invalidation_witness :
    (load_or_create_thumbnail id id "cache" (fun _ => none) probeDecode "a.jpg"
        "100.0").decodedOriginal = true ∧
      (load_or_create_thumbnail id id "cache"
          (load_or_create_thumbnail id id "cache" (fun _ => none) probeDecode "a.jpg"
              "100.0").cacheAfter probeDecode "a.jpg" "100.0").result =
        some (id wbProbeImg) ∧
      (load_or_create_thumbnail id id "cache"
          (load_or_create_thumbnail id id "cache" (fun _ => none) probeDecode "a.jpg"
              "100.0").cacheAfter probeDecode "a.jpg" "100.0").decodedOriginal = false ∧
      cacheKey "a.jpg" "200.0" ≠ cacheKey "a.jpg" "100.0" ∧
      getCachePath id "cache" "a.jpg" "200.0" ≠ getCachePath id "cache" "a.jpg" "100.0" ∧
      (load_or_create_thumbnail id id "cache"
          (load_or_create_thumbnail id id "cache" (fun _ => none) probeDecode "a.jpg"
              "100.0").cacheAfter probeDecode "a.jpg" "200.0").decodedOriginal = true :=
  thumbnail_cache_hit_and_invalidation id id "cache" (fun _ => none) probeDecode
    "a.jpg" "100.0" "200.0" wbProbeImg Function.injective_id rfl rfl (by decide) rfl

end Qiv
